import Mathlib

/-!
Verification of the rigid-body collision and impulse-response core of the
PythonPhysicsAlgorithms repository. The Python sources are shallowly
embedded: 3-vectors become a `Vec3` structure over an exact field
(rationals for the purely arithmetic collision helpers, reals where the
source takes square roots), stateful methods become functions returning
the updated record, and Python `None` becomes `Option`.
-/

/-- Three-component vector mirroring `glm.vec3`. -/
structure Vec3 (α : Type) where
  x : α
  y : α
  z : α
deriving DecidableEq, Repr

instance {α : Type} [Add α] : Add (Vec3 α) where
  add a b := ⟨a.x + b.x, a.y + b.y, a.z + b.z⟩

instance {α : Type} [Sub α] : Sub (Vec3 α) where
  sub a b := ⟨a.x - b.x, a.y - b.y, a.z - b.z⟩

instance {α : Type} [Neg α] : Neg (Vec3 α) where
  neg a := ⟨-a.x, -a.y, -a.z⟩

instance {α : Type} [Mul α] : SMul α (Vec3 α) where
  smul c v := ⟨c * v.x, c * v.y, c * v.z⟩

instance {α : Type} [Zero α] : Zero (Vec3 α) where
  zero := ⟨0, 0, 0⟩

/-- Componentwise division by a scalar: `v / c` as pyglm computes it. -/
def Vec3.divs {α : Type} [Div α] (v : Vec3 α) (c : α) : Vec3 α :=
  ⟨v.x / c, v.y / c, v.z / c⟩

/-- Dot product, mirroring `glm.dot`. -/
def Vec3.dot {α : Type} [Add α] [Mul α] (a b : Vec3 α) : α :=
  a.x * b.x + a.y * b.y + a.z * b.z

/-- Cross product, mirroring `glm.cross`. -/
def Vec3.cross {α : Type} [Sub α] [Mul α] (a b : Vec3 α) : Vec3 α :=
  ⟨a.y * b.z - a.z * b.y, a.z * b.x - a.x * b.z, a.x * b.y - a.y * b.x⟩

/-!
## src/collisions/math_functions.py

These helpers are pure rational arithmetic, so they are embedded over `ℚ`.
-/

/-- The loop of `get_furthest_point`: runs through the remaining points
carrying the current best point and best dot product, replacing them on a
strict improvement (`>` in the source, so earlier points win ties). -/
def furthest_go (direction : Vec3 ℚ) : List (Vec3 ℚ) → Vec3 ℚ → ℚ → Vec3 ℚ
  | [], best_point, _ => best_point
  | p :: ps, best_point, best_dot =>
    if Vec3.dot p direction > best_dot then furthest_go direction ps p (Vec3.dot p direction)
    else furthest_go direction ps best_point best_dot

/-- `get_furthest_point(points, direction_vector)` from
src/collisions/math_functions.py: starts from the sentinel pair
`best_point = vec3(0,0,0)`, `best_dot = -1e6` and scans the list. -/
def get_furthest_point (points : List (Vec3 ℚ)) (direction : Vec3 ℚ) : Vec3 ℚ :=
  furthest_go direction points ⟨0, 0, 0⟩ (-1000000)

/-- `get_support_point(points1, points2, direction_vector)` from
src/collisions/math_functions.py. The Python body evaluates the
Minkowski-difference expression but has no `return` statement, so the
call returns `None`; the embedding evaluates the same expression,
discards it, and returns `none`. -/
def get_support_point (points1 points2 : List (Vec3 ℚ)) (direction : Vec3 ℚ) :
    Option (Vec3 ℚ) :=
  let _ := get_furthest_point points1 direction - get_furthest_point points2 (-direction)
  none

/-!
## src/collisions/narrow_collisions.py
-/

/-- The nested `signed_volume(p1, p2, p3)` helper of
`calculate_contact_point`, which closes over `normal`. -/
def signed_volume (normal p1 p2 p3 : Vec3 ℚ) : ℚ :=
  Vec3.dot (Vec3.cross (p1 - p3) (p2 - p3)) normal / 6

/-- Indexing `polytope[face[i]]`; the Python code always indexes in range,
so out-of-range (which raises in Python) defaults to the zero vector. -/
def face_vertex (polytope : List (Vec3 ℚ)) (i : ℕ) : Vec3 ℚ :=
  polytope.getD i ⟨0, 0, 0⟩

/-- `calculate_contact_point(points1, points2, polytope, face, normal)`
from src/collisions/narrow_collisions.py. Returns the body-1 contact
point; the zero vector when the total signed volume of the nearest face
is exactly zero. -/
def calculate_contact_point (points1 points2 polytope : List (Vec3 ℚ))
    (face : ℕ × ℕ × ℕ) (normal : Vec3 ℚ) : Vec3 ℚ :=
  let a := face_vertex polytope face.1
  let b := face_vertex polytope face.2.1
  let c := face_vertex polytope face.2.2
  let total_volume := signed_volume normal a b c
  if total_volume = 0 then ⟨0, 0, 0⟩
  else
    let volume_pbc := signed_volume normal ⟨0, 0, 0⟩ b c
    let volume_pca := signed_volume normal ⟨0, 0, 0⟩ c a
    let volume_pab := signed_volume normal ⟨0, 0, 0⟩ a b
    let u := volume_pbc / total_volume
    let v := volume_pca / total_volume
    let w := volume_pab / total_volume
    let sum_barycentric := u + v + w
    let u := if sum_barycentric ≠ 0 then u / sum_barycentric else u
    let v := if sum_barycentric ≠ 0 then v / sum_barycentric else v
    let w := if sum_barycentric ≠ 0 then w / sum_barycentric else w
    let support1_a := get_furthest_point points1 a
    let support1_b := get_furthest_point points1 b
    let support1_c := get_furthest_point points1 c
    -- the body-2 supports and contact point are computed by the source
    -- and discarded (it returns `contact_point1` only)
    let _ := u • get_furthest_point points2 (-a) + v • get_furthest_point points2 (-b)
      + w • get_furthest_point points2 (-c)
    u • support1_a + v • support1_b + w • support1_c

/-!
## Real-valued vector helpers

The physics code takes square roots (`glm.length`, `glm.normalize`,
`sqrt(spring_constant)`), so it is embedded over `ℝ`.
-/

/-- `glm.length`: the Euclidean norm. -/
noncomputable def lengthR (v : Vec3 ℝ) : ℝ :=
  Real.sqrt (Vec3.dot v v)

/-- `glm.normalize`: componentwise division by the length. -/
noncomputable def normalizeR (v : Vec3 ℝ) : Vec3 ℝ :=
  Vec3.divs v (lengthR v)

/-- Python `round(x, 3)`: rounding to three decimal places. Python uses
round-half-to-even while Lean `round` is half-up; they agree off exact
ties at half-thousandths, and every property proved here stays strictly
away from such ties. -/
noncomputable def round3 (x : ℝ) : ℝ :=
  ((round (1000 * x) : ℤ) : ℝ) / 1000

/-- The componentwise rounding `glm.vec3([round(v, 3) for v in w])`. -/
noncomputable def roundVec3 (v : Vec3 ℝ) : Vec3 ℝ :=
  ⟨round3 v.x, round3 v.y, round3 v.z⟩

/-- A 3x3 real matrix, mirroring `glm.mat3x3`. -/
structure Mat3 where
  (m00 m01 m02 : ℝ)
  (m10 m11 m12 : ℝ)
  (m20 m21 m22 : ℝ)

instance : Zero Mat3 where
  zero := ⟨0, 0, 0, 0, 0, 0, 0, 0, 0⟩

/-- Matrix-vector product (the tensors used here are symmetric, so the
row/column convention of `glm` is immaterial). -/
def Mat3.mulVec (m : Mat3) (v : Vec3 ℝ) : Vec3 ℝ :=
  ⟨m.m00 * v.x + m.m01 * v.y + m.m02 * v.z,
   m.m10 * v.x + m.m11 * v.y + m.m12 * v.z,
   m.m20 * v.x + m.m21 * v.y + m.m22 * v.z⟩

/-- Determinant of a 3x3 matrix. -/
def Mat3.det (m : Mat3) : ℝ :=
  m.m00 * (m.m11 * m.m22 - m.m12 * m.m21)
    - m.m01 * (m.m10 * m.m22 - m.m12 * m.m20)
    + m.m02 * (m.m10 * m.m21 - m.m11 * m.m20)

/-- `glm.inverse` on 3x3 matrices: adjugate over determinant. -/
noncomputable def Mat3.inverse (m : Mat3) : Mat3 :=
  let d := m.det
  ⟨(m.m11 * m.m22 - m.m12 * m.m21) / d,
   (m.m02 * m.m21 - m.m01 * m.m22) / d,
   (m.m01 * m.m12 - m.m02 * m.m11) / d,
   (m.m12 * m.m20 - m.m10 * m.m22) / d,
   (m.m00 * m.m22 - m.m02 * m.m20) / d,
   (m.m02 * m.m10 - m.m00 * m.m12) / d,
   (m.m10 * m.m21 - m.m11 * m.m20) / d,
   (m.m01 * m.m20 - m.m00 * m.m21) / d,
   (m.m00 * m.m11 - m.m01 * m.m10) / d⟩

/-!
## src/physics/physics_body_handler.py
-/

/-- `PointPhysicsBody`: mass and linear velocity. -/
structure PointPhysicsBody where
  mass : ℝ
  velocity : Vec3 ℝ

/-- `PointPhysicsBody.__init__(mass=1, velocity=None)`: stores the mass
unchecked; a missing velocity defaults to the zero vector. -/
def PointPhysicsBody.init (mass : ℝ) (velocity : Option (Vec3 ℝ)) : PointPhysicsBody :=
  { mass, velocity := velocity.getD ⟨0, 0, 0⟩ }

/-- `PhysicsBody` (extends `PointPhysicsBody` in the source, flattened
here): adds scalar rotational velocity and an axis of rotation. The
orientation quaternion field is not touched by any verified operation
and is omitted. -/
structure PhysicsBody where
  mass : ℝ
  velocity : Vec3 ℝ
  rotational_velocity : ℝ
  axis_of_rotation : Vec3 ℝ

/-- `PhysicsBody.__init__(mass=1, velocity=None, rotational_velocity=0,
axis_of_rotation=None)`: stores mass and axis unchecked; a missing axis
defaults to `(1, 0, 0)`. -/
def PhysicsBody.init (mass : ℝ) (velocity : Option (Vec3 ℝ)) (rotational_velocity : ℝ)
    (axis_of_rotation : Option (Vec3 ℝ)) : PhysicsBody :=
  { mass, velocity := velocity.getD ⟨0, 0, 0⟩, rotational_velocity,
    axis_of_rotation := axis_of_rotation.getD ⟨1, 0, 0⟩ }

/-- `PhysicsBodyHandler.add_physics_body`: appends a new `PhysicsBody`
to the handler list and returns it (`self.physics_bodies[-1]`). -/
def add_physics_body (physics_bodies : List PhysicsBody) (mass : ℝ)
    (velocity : Option (Vec3 ℝ)) (rotational_velocity : ℝ)
    (axis_of_rotation : Option (Vec3 ℝ)) : List PhysicsBody × PhysicsBody :=
  let b := PhysicsBody.init mass velocity rotational_velocity axis_of_rotation
  (physics_bodies ++ [b], b)

/-!
## src/physics/physics_handler.py
-/

/-- Everything of `PhysicsHandler.calculate_impluse1` before the final
componentwise rounding: normal impulse plus (threshold `1e-6`) kinetic
friction impulse. -/
noncomputable def calculate_impluse1_raw (physics_body : PhysicsBody) (inv_mass : ℝ)
    (omega radius : Vec3 ℝ) (inv_inertia : Mat3) (elasticity kinetic statc : ℝ)
    (normal : Vec3 ℝ) : Vec3 ℝ :=
  let _ := statc
  let relative_velocity := physics_body.velocity + Vec3.cross omega radius
  let relative_normal_velocity := Vec3.dot relative_velocity normal
  let denominator := inv_mass
    + Vec3.dot normal (Vec3.cross (Mat3.mulVec inv_inertia (Vec3.cross radius normal)) radius)
  let normal_impulse_magnitude := -(1 + elasticity) * relative_normal_velocity / denominator
  let normal_impulse := normal_impulse_magnitude • normal
  let rel_tan_vel := relative_velocity - Vec3.dot relative_velocity normal • normal
  let friction_impulse :=
    if lengthR rel_tan_vel < 1e-6 then (⟨0, 0, 0⟩ : Vec3 ℝ)
    else (-kinetic * lengthR normal_impulse) • normalizeR rel_tan_vel
  normal_impulse + friction_impulse

/-- `PhysicsHandler.calculate_impluse1` (name as in the source): the raw
impulse with every component rounded to three decimals. -/
noncomputable def calculate_impluse1 (physics_body : PhysicsBody) (inv_mass : ℝ)
    (omega radius : Vec3 ℝ) (inv_inertia : Mat3) (elasticity kinetic statc : ℝ)
    (normal : Vec3 ℝ) : Vec3 ℝ :=
  roundVec3 (calculate_impluse1_raw physics_body inv_mass omega radius inv_inertia
    elasticity kinetic statc normal)

/-- Everything of `PhysicsHandler.calculate_impulse2` before the final
rounding. Note the friction threshold in the source reads `1e6`, not
`1e-6` as in the one-body path. -/
noncomputable def calculate_impulse2_raw (physics_body1 physics_body2 : PhysicsBody)
    (inv_mass1 inv_mass2 : ℝ) (omega1 omega2 radius1 radius2 : Vec3 ℝ)
    (inv_inertia1 inv_inertia2 : Mat3) (elasticity kinetic statc : ℝ)
    (normal : Vec3 ℝ) : Vec3 ℝ :=
  let _ := statc
  let relative_velocity := physics_body1.velocity + Vec3.cross omega1 radius1
    - (physics_body2.velocity + Vec3.cross omega2 radius2)
  let relative_normal_velocity := Vec3.dot relative_velocity normal
  let term1 := inv_mass1 + inv_mass2
  let term2 := Vec3.dot normal
    (Vec3.cross (Mat3.mulVec inv_inertia1 (Vec3.cross radius1 normal)) radius1
      + Vec3.cross (Mat3.mulVec inv_inertia2 (Vec3.cross radius2 normal)) radius2)
  let normal_impulse := (-(1 + elasticity) * relative_normal_velocity / (term1 + term2)) • normal
  let rel_tan_vel := relative_velocity - Vec3.dot relative_velocity normal • normal
  let friction_impulse :=
    if lengthR rel_tan_vel < 1e6 then (⟨0, 0, 0⟩ : Vec3 ℝ)
    else (-kinetic * lengthR normal_impulse) • normalizeR rel_tan_vel
  normal_impulse + friction_impulse

/-- `PhysicsHandler.calculate_impulse2`: the raw two-body impulse with
every component rounded to three decimals. -/
noncomputable def calculate_impulse2 (physics_body1 physics_body2 : PhysicsBody)
    (inv_mass1 inv_mass2 : ℝ) (omega1 omega2 radius1 radius2 : Vec3 ℝ)
    (inv_inertia1 inv_inertia2 : Mat3) (elasticity kinetic statc : ℝ)
    (normal : Vec3 ℝ) : Vec3 ℝ :=
  roundVec3 (calculate_impulse2_raw physics_body1 physics_body2 inv_mass1 inv_mass2
    omega1 omega2 radius1 radius2 inv_inertia1 inv_inertia2 elasticity kinetic statc normal)

/-- `PhysicsHandler.apply_impulse`: updates linear velocity by
`impulse_signed * inv_mass` and refreshes the angular state, zeroing it
when the combined angular velocity vector is shorter than `1e-6`. -/
noncomputable def apply_impulse (radius impulse_signed : Vec3 ℝ) (inv_inertia : Mat3)
    (inv_mass : ℝ) (physics_body : PhysicsBody) : PhysicsBody :=
  let velocity := physics_body.velocity + inv_mass • impulse_signed
  let delta_omega := Mat3.mulVec inv_inertia (Vec3.cross radius impulse_signed)
  let angular_velocity_vector :=
    physics_body.rotational_velocity • physics_body.axis_of_rotation + delta_omega
  if lengthR angular_velocity_vector < 1e-6 then
    { physics_body with
      velocity := velocity
      rotational_velocity := 0
      axis_of_rotation := ⟨1, 0, 0⟩ }
  else
    { physics_body with
      velocity := velocity
      rotational_velocity := lengthR angular_velocity_vector
      axis_of_rotation := normalizeR angular_velocity_vector }

/-!
## src/collisions/collider_handler.py
-/

/-- The 9-element transform vector `[tx,ty,tz, sx,sy,sz, rx,ry,rz]`:
`pos = data[:3]`, `scale = data[3:6]`, `rot = data[6:]`. -/
structure TransformData where
  pos : Vec3 ℝ
  scale : Vec3 ℝ
  rot : Vec3 ℝ

noncomputable instance : DecidableEq TransformData := Classical.decEq _

/-- Rotation about the positive x axis by an angle. -/
noncomputable def rotX (t : ℝ) (v : Vec3 ℝ) : Vec3 ℝ :=
  ⟨v.x, Real.cos t * v.y - Real.sin t * v.z, Real.sin t * v.y + Real.cos t * v.z⟩

/-- Rotation about the positive y axis by an angle. -/
noncomputable def rotY (t : ℝ) (v : Vec3 ℝ) : Vec3 ℝ :=
  ⟨Real.cos t * v.x + Real.sin t * v.z, v.y, -(Real.sin t) * v.x + Real.cos t * v.z⟩

/-- Rotation about the positive z axis by an angle. -/
noncomputable def rotZ (t : ℝ) (v : Vec3 ℝ) : Vec3 ℝ :=
  ⟨Real.cos t * v.x - Real.sin t * v.y, Real.sin t * v.x + Real.cos t * v.y, v.z⟩

/-- `Collider.get_model_matrix` applied to a point: translate, then
rotate by `data[6..8]` about the axes `(-1,0,0)`, `(0,-1,0)`, `(0,0,-1)`
(equivalently by the negated angles about the positive axes), then
scale — matrices compose right to left, so scaling hits the point
first. -/
noncomputable def worldPoint (data : TransformData) (v : Vec3 ℝ) : Vec3 ℝ :=
  data.pos + rotX (-data.rot.x) (rotY (-data.rot.y) (rotZ (-data.rot.z)
    ⟨v.x * data.scale.x, v.y * data.scale.y, v.z * data.scale.z⟩))

/-- `Collider.get_real_vertex_locations`: world coordinates of the
prefab vertices under the model matrix. -/
noncomputable def realVertices (prefab : List (Vec3 ℝ)) (data : TransformData) :
    List (Vec3 ℝ) :=
  prefab.map (worldPoint data)

/-- One step of the min/max scans in `get_geometric_center` and
`get_dimensions`: fold state is `(minimums, maximums)`. -/
noncomputable def aabb_step (mm : Vec3 ℝ × Vec3 ℝ) (p : Vec3 ℝ) : Vec3 ℝ × Vec3 ℝ :=
  (⟨if p.x < mm.1.x then p.x else mm.1.x,
    if p.y < mm.1.y then p.y else mm.1.y,
    if p.z < mm.1.z then p.z else mm.1.z⟩,
   ⟨if p.x > mm.2.x then p.x else mm.2.x,
    if p.y > mm.2.y then p.y else mm.2.y,
    if p.z > mm.2.z then p.z else mm.2.z⟩)

/-- The min/max scan over a point list, seeded with `1e10` and `-1e10`
exactly as in the source. -/
noncomputable def aabb_of (points : List (Vec3 ℝ)) : Vec3 ℝ × Vec3 ℝ :=
  points.foldl aabb_step (⟨1e10, 1e10, 1e10⟩, ⟨-1e10, -1e10, -1e10⟩)

/-- `Collider.get_geometric_center`: the AABB midpoint of the world
vertices. -/
noncomputable def centerOf (vertices : List (Vec3 ℝ)) : Vec3 ℝ :=
  let mm := aabb_of vertices
  ⟨(mm.2.x + mm.1.x) / 2, (mm.2.y + mm.1.y) / 2, (mm.2.z + mm.1.z) / 2⟩

/-- `Collider.get_dimensions`: per-axis extent of the prefab vertices
multiplied componentwise by the scale slice of the data. -/
noncomputable def dimensionsOf (prefab : List (Vec3 ℝ)) (scale : Vec3 ℝ) : Vec3 ℝ :=
  let mm := aabb_of (prefab.map fun p => ⟨p.x * scale.x, p.y * scale.y, p.z * scale.z⟩)
  ⟨mm.2.x - mm.1.x, mm.2.y - mm.1.y, mm.2.z - mm.1.z⟩

/-- Accumulator for the six independent entries of the inertia tensor. -/
structure InertiaAcc where
  (xx yy zz xy xz yz : ℝ)

/-- `Collider.get_inertia_tensor(mass)`: the point-cloud inertia tensor
about the geometric center, symmetrized, times mass over the vertex
count. -/
noncomputable def inertiaOf (vertices : List (Vec3 ℝ)) (center : Vec3 ℝ) (mass : ℝ) :
    Mat3 :=
  let acc := vertices.foldl
    (fun (a : InertiaAcc) v =>
      let r := v - center
      ⟨a.xx + (r.y * r.y + r.z * r.z), a.yy + (r.x * r.x + r.z * r.z),
       a.zz + (r.x * r.x + r.y * r.y), a.xy - r.x * r.y, a.xz - r.x * r.z,
       a.yz - r.y * r.z⟩)
    ⟨0, 0, 0, 0, 0, 0⟩
  let n := (vertices.length : ℝ)
  ⟨mass * acc.xx / n, mass * acc.xy / n, mass * acc.xz / n,
   mass * acc.xy / n, mass * acc.yy / n, mass * acc.yz / n,
   mass * acc.xz / n, mass * acc.yz / n, mass * acc.zz / n⟩

/-- `Collider`: transform data, prefab reference, and the derived caches
(world vertices, AABB dimensions, geometric center, inertia tensor). -/
structure Collider where
  prefab : List (Vec3 ℝ)
  data : TransformData
  vertices : List (Vec3 ℝ)
  dimensions : Vec3 ℝ
  geometric_center : Vec3 ℝ
  statc : Bool
  elasticity : ℝ
  inertia_tensor : Mat3
  static_friction : ℝ
  kinetic_friction : ℝ

/-- `Collider.__init__(collider_handler, data, prefab, static,
elasticity=0.2)`: a missing data vector defaults to
`[0,0,0,1,1,1,0,0,0]`; every derived cache is computed from scratch
(`get_inertia_tensor` is called with its default mass 1). -/
noncomputable def Collider.init (prefab : List (Vec3 ℝ)) (data : Option TransformData)
    (statc : Bool) (elasticity : ℝ) : Collider :=
  let d := data.getD ⟨⟨0, 0, 0⟩, ⟨1, 1, 1⟩, ⟨0, 0, 0⟩⟩
  let vertices := realVertices prefab d
  let geometric_center := centerOf vertices
  { prefab := prefab
    data := d
    vertices := vertices
    dimensions := dimensionsOf prefab d.scale
    geometric_center := geometric_center
    statc := statc
    elasticity := elasticity
    inertia_tensor := inertiaOf vertices geometric_center 1
    static_friction := 0.8
    kinetic_friction := 0.4 }

/-- `Collider.set_data(data)`: always recomputes world vertices and the
geometric center; recomputes dimensions only under
`oldData[3:6] != data[3:6]`, and the inertia tensor only under the
further nested `oldData[6:] != data[6:]` check. -/
noncomputable def Collider.set_data (c : Collider) (data : TransformData) : Collider :=
  let oldData := c.data
  let vertices := realVertices c.prefab data
  let geometric_center := centerOf vertices
  let c2 := { c with
    data := data
    vertices := vertices
    geometric_center := geometric_center }
  if oldData.scale ≠ data.scale then
    let c3 := { c2 with dimensions := dimensionsOf c.prefab data.scale }
    if oldData.rot ≠ data.rot then
      { c3 with inertia_tensor := inertiaOf vertices geometric_center 1 }
    else c3
  else c2

/-!
## src/skeletons/joints.py
-/

/-- A `Collection` as used by `Joint.restrict`: its world position and
optional physics body (the class itself lives outside the collision
core). -/
structure Collection where
  position : Vec3 ℝ
  physics_body : Option PhysicsBody

/-- `Joint.__init__` data: the child offset is stored as the *length* of
the constructor argument (radial joint). The quaternion-typed
`original_parent_offset` is only used by `rotate_parent_offset`, which
no verified claim touches, so it is omitted. -/
structure Joint where
  parent_offset : Vec3 ℝ
  child_offset : ℝ
  spring_constant : ℝ
  min_radius : ℝ
  max_radius : ℝ

/-- The spring-force branch of `Joint.restrict`, translated from the
block guarded by `if False and (child.physics_body or
parent.physics_body)` in the source (a dead branch there). When the
child has no physics body the source would raise reading
`child.physics_body.velocity`; the embedding uses the zero vector,
which no caller can observe since the branch is unreachable. -/
noncomputable def spring_branch (j : Joint) (parent child : Collection) (delta_time : ℝ)
    (direction origin : Vec3 ℝ) : Collection × Collection :=
  let child_velocity := match child.physics_body with
    | some pb => pb.velocity
    | none => (⟨0, 0, 0⟩ : Vec3 ℝ)
  let force_spring :=
    (j.spring_constant * (lengthR (origin - child.position) - j.child_offset)) • direction
  let force_dampen := (-Real.sqrt j.spring_constant) • child_velocity
  let force_total :=
    (if child.physics_body.isSome && parent.physics_body.isSome then (0.5 : ℝ) else 1)
      • (force_spring + force_dampen)
  let child2 := match child.physics_body with
    | some pb =>
      let acceleration := Vec3.divs force_total pb.mass
      let velocity := pb.velocity + delta_time • acceleration
      { position := child.position + delta_time • velocity
        physics_body := some { pb with velocity := velocity } }
    | none => child
  let parent2 := match parent.physics_body with
    | some pb =>
      let acceleration := Vec3.divs (-force_total) pb.mass
      let velocity := pb.velocity + delta_time • acceleration
      { position := parent.position + delta_time • velocity
        physics_body := some { pb with velocity := velocity } }
    | none => parent
  (parent2, child2)

/-- `Joint.restrict(parent, child, delta_time)`: early exit when the
anchor is within `1e-7` of the child; otherwise the physics branch is
behind `if False and (...)` in the source and can never run, so the
child is snapped to the anchor. Returns `(parent, child)` updated. -/
noncomputable def Joint.restrict (j : Joint) (parent child : Collection)
    (delta_time : ℝ) : Collection × Collection :=
  let origin := parent.position + j.parent_offset
  let displacement := origin - child.position
  if lengthR displacement < 1e-7 then (parent, child)
  else
    let direction := normalizeR displacement
    if false && (child.physics_body.isSome || parent.physics_body.isSome) then
      spring_branch j parent child delta_time direction origin
    else (parent, { child with position := origin })

/-!
## PhysicsHandler.calculate_collisions
-/

/-- One iteration of the two-body contact loop in
`calculate_collisions`: recompute the impulse from the current body
states (angular velocity vectors are re-read each iteration), divide by
the number of contact points, and apply it with sign `+` to body 1 and
sign `-` to body 2. -/
noncomputable def collision_step2 (c1 c2 : Collider) (inv_mass1 inv_mass2 : ℝ)
    (inv_inertia1 inv_inertia2 : Mat3) (elasticity kinetic statc num_points : ℝ)
    (normal : Vec3 ℝ) (s : PhysicsBody × PhysicsBody) (contact_point : Vec3 ℝ) :
    PhysicsBody × PhysicsBody :=
  let pb1 := s.1
  let pb2 := s.2
  let radius1 := contact_point - c1.geometric_center
  let radius2 := contact_point - c2.geometric_center
  let impulse := calculate_impulse2 pb1 pb2 inv_mass1 inv_mass2
    (pb1.rotational_velocity • pb1.axis_of_rotation)
    (pb2.rotational_velocity • pb2.axis_of_rotation)
    radius1 radius2 inv_inertia1 inv_inertia2 elasticity kinetic statc normal
  let impulse := Vec3.divs impulse num_points
  (apply_impulse radius1 impulse inv_inertia1 inv_mass1 pb1,
   apply_impulse radius2 (-impulse) inv_inertia2 inv_mass2 pb2)

/-- One iteration of the body-1-only loop: note the source applies the
impulse with sign `-` in this branch. -/
noncomputable def collision_step_first (c1 : Collider) (inv_mass1 : ℝ)
    (inv_inertia1 : Mat3) (elasticity kinetic statc num_points : ℝ) (normal : Vec3 ℝ)
    (pb1 : PhysicsBody) (contact_point : Vec3 ℝ) : PhysicsBody :=
  let radius := contact_point - c1.geometric_center
  let impulse := calculate_impluse1 pb1 inv_mass1
    (pb1.rotational_velocity • pb1.axis_of_rotation) radius inv_inertia1
    elasticity kinetic statc normal
  let impulse := Vec3.divs impulse num_points
  apply_impulse radius (-impulse) inv_inertia1 inv_mass1 pb1

/-- One iteration of the body-2-only loop: here the impulse is applied
with sign `+`. -/
noncomputable def collision_step_second (c2 : Collider) (inv_mass2 : ℝ)
    (inv_inertia2 : Mat3) (elasticity kinetic statc num_points : ℝ) (normal : Vec3 ℝ)
    (pb2 : PhysicsBody) (contact_point : Vec3 ℝ) : PhysicsBody :=
  let radius := contact_point - c2.geometric_center
  let impulse := calculate_impluse1 pb2 inv_mass2
    (pb2.rotational_velocity • pb2.axis_of_rotation) radius inv_inertia2
    elasticity kinetic statc normal
  let impulse := Vec3.divs impulse num_points
  apply_impulse radius impulse inv_inertia2 inv_mass2 pb2

/-- `PhysicsHandler.calculate_collisions`: gathers coefficients (the
kinetic coefficient is hardcoded to `0.8`, the `min` of the collider
values being commented out), then runs the per-contact-point loop for
whichever bodies have physics. When neither body has physics the Python
`else` branch dereferences `None` and raises; that case returns the
bodies unchanged here. -/
noncomputable def calculate_collisions (normal : Vec3 ℝ) (c1 c2 : Collider)
    (opb1 opb2 : Option PhysicsBody) (contact_points : List (Vec3 ℝ)) :
    Option PhysicsBody × Option PhysicsBody :=
  let elasticity := max c1.elasticity c2.elasticity
  let kinetic := (0.8 : ℝ)
  let statc := min c1.static_friction c2.static_friction
  let num_points := (contact_points.length : ℝ)
  match opb1, opb2 with
  | some pb1, some pb2 =>
    let inv_mass1 := 1 / pb1.mass
    let inv_inertia1 := Mat3.inverse (inertiaOf c1.vertices c1.geometric_center pb1.mass)
    let inv_mass2 := 1 / pb2.mass
    let inv_inertia2 := Mat3.inverse (inertiaOf c2.vertices c2.geometric_center pb2.mass)
    let r := contact_points.foldl
      (collision_step2 c1 c2 inv_mass1 inv_mass2 inv_inertia1 inv_inertia2
        elasticity kinetic statc num_points normal) (pb1, pb2)
    (some r.1, some r.2)
  | some pb1, none =>
    let inv_mass1 := 1 / pb1.mass
    let inv_inertia1 := Mat3.inverse (inertiaOf c1.vertices c1.geometric_center pb1.mass)
    (some (contact_points.foldl
      (collision_step_first c1 inv_mass1 inv_inertia1 elasticity kinetic statc
        num_points normal) pb1), none)
  | none, some pb2 =>
    let inv_mass2 := 1 / pb2.mass
    let inv_inertia2 := Mat3.inverse (inertiaOf c2.vertices c2.geometric_center pb2.mass)
    (none, some (contact_points.foldl
      (collision_step_second c2 inv_mass2 inv_inertia2 elasticity kinetic statc
        num_points normal) pb2))
  | none, none => (none, none)

/-!
## Componentwise helper lemmas
-/

@[ext] theorem Vec3.ext3 {α : Type} {a b : Vec3 α} (hx : a.x = b.x) (hy : a.y = b.y)
    (hz : a.z = b.z) : a = b := by
  cases a
  cases b
  simp_all

@[simp] theorem Vec3.add_x {α : Type} [Add α] (a b : Vec3 α) : (a + b).x = a.x + b.x := rfl

@[simp] theorem Vec3.add_y {α : Type} [Add α] (a b : Vec3 α) : (a + b).y = a.y + b.y := rfl

@[simp] theorem Vec3.add_z {α : Type} [Add α] (a b : Vec3 α) : (a + b).z = a.z + b.z := rfl

@[simp] theorem Vec3.sub_x {α : Type} [Sub α] (a b : Vec3 α) : (a - b).x = a.x - b.x := rfl

@[simp] theorem Vec3.sub_y {α : Type} [Sub α] (a b : Vec3 α) : (a - b).y = a.y - b.y := rfl

@[simp] theorem Vec3.sub_z {α : Type} [Sub α] (a b : Vec3 α) : (a - b).z = a.z - b.z := rfl

@[simp] theorem Vec3.neg_x {α : Type} [Neg α] (a : Vec3 α) : (-a).x = -a.x := rfl

@[simp] theorem Vec3.neg_y {α : Type} [Neg α] (a : Vec3 α) : (-a).y = -a.y := rfl

@[simp] theorem Vec3.neg_z {α : Type} [Neg α] (a : Vec3 α) : (-a).z = -a.z := rfl

@[simp] theorem Vec3.smul_x {α : Type} [Mul α] (c : α) (a : Vec3 α) :
    (c • a).x = c * a.x := rfl

@[simp] theorem Vec3.smul_y {α : Type} [Mul α] (c : α) (a : Vec3 α) :
    (c • a).y = c * a.y := rfl

@[simp] theorem Vec3.smul_z {α : Type} [Mul α] (c : α) (a : Vec3 α) :
    (c • a).z = c * a.z := rfl

@[simp] theorem Vec3.divs_x {α : Type} [Div α] (a : Vec3 α) (c : α) :
    (Vec3.divs a c).x = a.x / c := rfl

@[simp] theorem Vec3.divs_y {α : Type} [Div α] (a : Vec3 α) (c : α) :
    (Vec3.divs a c).y = a.y / c := rfl

@[simp] theorem Vec3.divs_z {α : Type} [Div α] (a : Vec3 α) (c : α) :
    (Vec3.divs a c).z = a.z / c := rfl

@[simp] theorem Vec3.mk_x {α : Type} (a b c : α) : (Vec3.mk a b c).x = a := rfl

@[simp] theorem Vec3.mk_y {α : Type} (a b c : α) : (Vec3.mk a b c).y = b := rfl

@[simp] theorem Vec3.mk_z {α : Type} (a b c : α) : (Vec3.mk a b c).z = c := rfl

@[simp] theorem Vec3.add_mk {α : Type} [Add α] (a b c d e f : α) :
    Vec3.mk a b c + Vec3.mk d e f = ⟨a + d, b + e, c + f⟩ := rfl

@[simp] theorem Vec3.sub_mk {α : Type} [Sub α] (a b c d e f : α) :
    Vec3.mk a b c - Vec3.mk d e f = ⟨a - d, b - e, c - f⟩ := rfl

@[simp] theorem Vec3.neg_mk {α : Type} [Neg α] (a b c : α) :
    -Vec3.mk a b c = ⟨-a, -b, -c⟩ := rfl

@[simp] theorem Vec3.smul_mk {α : Type} [Mul α] (r a b c : α) :
    r • Vec3.mk a b c = ⟨r * a, r * b, r * c⟩ := rfl

@[simp] theorem Vec3.divs_mk {α : Type} [Div α] (a b c r : α) :
    Vec3.divs (Vec3.mk a b c) r = ⟨a / r, b / r, c / r⟩ := rfl

@[simp] theorem Vec3.dot_mk {α : Type} [Add α] [Mul α] (a b c d e f : α) :
    Vec3.dot (Vec3.mk a b c) (Vec3.mk d e f) = a * d + b * e + c * f := rfl

@[simp] theorem Vec3.cross_mk {α : Type} [Sub α] [Mul α] (a b c d e f : α) :
    Vec3.cross (Vec3.mk a b c) (Vec3.mk d e f)
      = ⟨b * f - c * e, c * d - a * f, a * e - b * d⟩ := rfl

/-!
## Claim C1
-/

/-- C1: the claim says `get_support_point(points1, points2, d)` returns
the Minkowski-difference support `get_furthest_point(points1, d) −
get_furthest_point(points2, −d)`. The source computes that expression
but lacks a `return`, so the call yields `None`: at the input below the
claimed support is `(3, 0, 0)` yet the function returns nothing. -/
theorem C1_get_support_point_returns_none :
    get_support_point [⟨1, 0, 0⟩, ⟨3, 0, 0⟩] [⟨0, 0, 0⟩] ⟨1, 0, 0⟩ = none ∧
    get_furthest_point [⟨1, 0, 0⟩, ⟨3, 0, 0⟩] ⟨1, 0, 0⟩
      - get_furthest_point [⟨0, 0, 0⟩] (-(⟨1, 0, 0⟩ : Vec3 ℚ)) = ⟨3, 0, 0⟩ := by
  refine ⟨rfl, ?_⟩
  norm_num [get_furthest_point, furthest_go]

/-!
## Claim C5
-/

/-- C5 counterexample: a nearest face whose total signed volume against
the normal is zero (hence below any positive epsilon), where
`calculate_contact_point` returns the zero vector, not the geometric
mean `(5, 5, 5)` of the three body-1 support points. -/
theorem C5_counterexample :
    signed_volume ⟨0, 0, 1⟩ ⟨1, 0, 0⟩ ⟨2, 0, 0⟩ ⟨3, 0, 0⟩ = 0 ∧
    calculate_contact_point [⟨5, 5, 5⟩] [⟨0, 0, 0⟩]
      [⟨1, 0, 0⟩, ⟨2, 0, 0⟩, ⟨3, 0, 0⟩] (0, 1, 2) ⟨0, 0, 1⟩ = ⟨0, 0, 0⟩ ∧
    Vec3.divs (get_furthest_point [⟨5, 5, 5⟩] ⟨1, 0, 0⟩
      + get_furthest_point [⟨5, 5, 5⟩] ⟨2, 0, 0⟩
      + get_furthest_point [⟨5, 5, 5⟩] ⟨3, 0, 0⟩) 3 = ⟨5, 5, 5⟩ ∧
    (⟨0, 0, 0⟩ : Vec3 ℚ) ≠ ⟨5, 5, 5⟩ := by
  refine ⟨?_, ?_, ?_, ?_⟩
  · norm_num [signed_volume]
  · norm_num [calculate_contact_point, face_vertex, signed_volume]
  · norm_num [get_furthest_point, furthest_go]
  · norm_num

/-- C5 amended: whenever the total signed volume of the nearest face
against the normal is exactly zero, `calculate_contact_point` returns
the zero vector (not the mean of the body-1 support points; and the
guard is equality with zero, not a positive epsilon). -/
theorem C5_zero_volume_gives_zero_vector (points1 points2 polytope : List (Vec3 ℚ))
    (face : ℕ × ℕ × ℕ) (normal : Vec3 ℚ)
    (h : signed_volume normal (face_vertex polytope face.1)
      (face_vertex polytope face.2.1) (face_vertex polytope face.2.2) = 0) :
    calculate_contact_point points1 points2 polytope face normal = ⟨0, 0, 0⟩ := by
  unfold calculate_contact_point
  rw [if_pos h]

/-- C5 witness: the amended theorem applied at a concrete degenerate
face. -/
theorem C5_zero_volume_gives_zero_vector_witness :
    signed_volume ⟨0, 1, 0⟩ (face_vertex [⟨2, 0, 0⟩, ⟨4, 0, 0⟩, ⟨7, 0, 0⟩] 0)
      (face_vertex [⟨2, 0, 0⟩, ⟨4, 0, 0⟩, ⟨7, 0, 0⟩] 1)
      (face_vertex [⟨2, 0, 0⟩, ⟨4, 0, 0⟩, ⟨7, 0, 0⟩] 2) = 0 ∧
    calculate_contact_point [⟨1, 2, 3⟩] [⟨0, 0, 0⟩]
      [⟨2, 0, 0⟩, ⟨4, 0, 0⟩, ⟨7, 0, 0⟩] (0, 1, 2) ⟨0, 1, 0⟩ = ⟨0, 0, 0⟩ :=
  ⟨by norm_num [signed_volume, face_vertex],
   C5_zero_volume_gives_zero_vector _ _ _ _ _ (by norm_num [signed_volume, face_vertex])⟩

/-!
## Claim C6
-/

/-- C6 counterexample: constructing bodies with mass `-1 ≤ 0` raises
nothing — `PointPhysicsBody`, `PhysicsBody` and `add_physics_body` all
succeed and store the nonpositive mass unchanged, refuting the claim
that construction fails with an `InvalidMass` error. -/
theorem C6_counterexample :
    (PointPhysicsBody.init (-1) none).mass = -1 ∧
    (PhysicsBody.init (-1) none 0 none).mass = -1 ∧
    (add_physics_body [] (-1) none 0 none).2.mass = -1 ∧
    ¬ ((-1 : ℝ) > 0) :=
  ⟨rfl, rfl, rfl, by norm_num⟩

/-- C6 amended: no constructor validates the mass. For every mass
(positive or not) `PointPhysicsBody`, `PhysicsBody` and
`add_physics_body` construct a body storing exactly the given mass, and
`add_physics_body` appends it to the handler list; no `InvalidMass`
error exists in the code. -/
theorem C6_no_mass_validation (mass : ℝ) (velocity : Option (Vec3 ℝ))
    (rotational_velocity : ℝ) (axis : Option (Vec3 ℝ)) (l : List PhysicsBody) :
    (PointPhysicsBody.init mass velocity).mass = mass ∧
    (PhysicsBody.init mass velocity rotational_velocity axis).mass = mass ∧
    (add_physics_body l mass velocity rotational_velocity axis).2.mass = mass ∧
    (add_physics_body l mass velocity rotational_velocity axis).1
      = l ++ [PhysicsBody.init mass velocity rotational_velocity axis] :=
  ⟨rfl, rfl, rfl, rfl⟩

/-!
## Claim C7
-/

/-- C7 counterexample: a one-point list whose dot product with the
direction is below the `-1e6` starting sentinel; `get_furthest_point`
returns the initial `(0, 0, 0)`, which is not an element of the list
(and whose dot product `0` is not the maximum `-2000000`). -/
theorem C7_counterexample :
    get_furthest_point [⟨-2000000, 0, 0⟩] ⟨1, 0, 0⟩ = ⟨0, 0, 0⟩ ∧
    (⟨0, 0, 0⟩ : Vec3 ℚ) ∉ [(⟨-2000000, 0, 0⟩ : Vec3 ℚ)] := by
  constructor
  · norm_num [get_furthest_point, furthest_go]
  · norm_num

/-- If no remaining point strictly beats the carried best dot product,
the scan keeps the carried best point. -/
theorem furthest_go_no_improve (d : Vec3 ℚ) (l : List (Vec3 ℚ)) (bp : Vec3 ℚ) (bd : ℚ)
    (h : ∀ p ∈ l, Vec3.dot p d ≤ bd) : furthest_go d l bp bd = bp := by
  induction l generalizing bp bd with
  | nil => rfl
  | cons p ps ih =>
    rw [furthest_go, if_neg (not_lt.mpr (h p (List.mem_cons_self p ps)))]
    exact ih bp bd fun q hq => h q (List.mem_cons_of_mem p hq)

/-- If some remaining point strictly beats the carried best dot product,
the scan returns a member of the list realizing the maximum dot product,
and it is the first member whose dot product reaches that maximum. -/
theorem furthest_go_improve (d : Vec3 ℚ) (l : List (Vec3 ℚ)) (bp : Vec3 ℚ) (bd : ℚ)
    (h : ∃ p ∈ l, Vec3.dot p d > bd) :
    furthest_go d l bp bd ∈ l ∧ Vec3.dot (furthest_go d l bp bd) d > bd ∧
    (∀ q ∈ l, Vec3.dot q d ≤ Vec3.dot (furthest_go d l bp bd) d) ∧
    l.find? (fun q => decide (Vec3.dot (furthest_go d l bp bd) d ≤ Vec3.dot q d))
      = some (furthest_go d l bp bd) := by
  induction l generalizing bp bd with
  | nil => simp at h
  | cons p ps ih =>
    by_cases hp : Vec3.dot p d > bd
    · rw [furthest_go, if_pos hp]
      by_cases hall : ∀ q ∈ ps, Vec3.dot q d ≤ Vec3.dot p d
      · have hR : furthest_go d ps p (Vec3.dot p d) = p := furthest_go_no_improve d ps p _ hall
        rw [hR]
        refine ⟨List.mem_cons_self p ps, hp, ?_, ?_⟩
        · intro q hq
          rcases List.mem_cons.mp hq with h1 | h2
          · rw [h1]
          · exact hall q h2
        · exact List.find?_cons_of_pos _ (by simp)
      · push_neg at hall
        obtain ⟨q0, hq0, hlt⟩ := hall
        have IH := ih p (Vec3.dot p d) ⟨q0, hq0, hlt⟩
        refine ⟨List.mem_cons_of_mem p IH.1, lt_trans hp IH.2.1, ?_, ?_⟩
        · intro q hq
          rcases List.mem_cons.mp hq with h1 | h2
          · rw [h1]; exact le_of_lt IH.2.1
          · exact IH.2.2.1 q h2
        · rw [List.find?_cons_of_neg _ (by simp [not_le.mpr IH.2.1])]
          exact IH.2.2.2
    · rw [furthest_go, if_neg hp]
      have hex : ∃ q ∈ ps, Vec3.dot q d > bd := by
        obtain ⟨q0, hq0, hgt⟩ := h
        rcases List.mem_cons.mp hq0 with h1 | h2
        · exact absurd (h1 ▸ hgt) hp
        · exact ⟨q0, h2, hgt⟩
      have IH := ih bp bd hex
      have hple : Vec3.dot p d ≤ bd := not_lt.mp hp
      refine ⟨List.mem_cons_of_mem p IH.1, IH.2.1, ?_, ?_⟩
      · intro q hq
        rcases List.mem_cons.mp hq with h1 | h2
        · rw [h1]; exact le_trans hple (le_of_lt IH.2.1)
        · exact IH.2.2.1 q h2
      · rw [List.find?_cons_of_neg _ (by simp [not_le.mpr (lt_of_le_of_lt hple IH.2.1)])]
        exact IH.2.2.2

/-- C7 amended: the claim holds whenever some point beats the `-1e6`
starting sentinel (in particular for every list containing a point whose
dot product with the direction exceeds `-1e6`): the result is then an
element of the list whose dot product with the direction is the maximum,
and it is the first-seen element attaining that maximum. Without that
proviso the sentinel start can make the function return the non-member
`(0, 0, 0)`. -/
theorem C7_furthest_point_is_first_argmax (points : List (Vec3 ℚ)) (direction : Vec3 ℚ)
    (h : ∃ p ∈ points, Vec3.dot p direction > -1000000) :
    get_furthest_point points direction ∈ points ∧
    (∀ q ∈ points,
      Vec3.dot q direction ≤ Vec3.dot (get_furthest_point points direction) direction) ∧
    points.find? (fun q => decide
        (Vec3.dot (get_furthest_point points direction) direction ≤ Vec3.dot q direction))
      = some (get_furthest_point points direction) := by
  have H := furthest_go_improve direction points ⟨0, 0, 0⟩ (-1000000) h
  exact ⟨H.1, H.2.2.1, H.2.2.2⟩

/-- C7 witness: the amended theorem at a list with a tie, checking the
first-seen point `(2, 0, 0)` is selected. -/
theorem C7_furthest_point_is_first_argmax_witness :
    (∃ p ∈ [(⟨0, 1, 0⟩ : Vec3 ℚ), ⟨2, 0, 0⟩, ⟨2, 5, 0⟩], Vec3.dot p ⟨1, 0, 0⟩ > -1000000) ∧
    (get_furthest_point [⟨0, 1, 0⟩, ⟨2, 0, 0⟩, ⟨2, 5, 0⟩] ⟨1, 0, 0⟩
        ∈ [(⟨0, 1, 0⟩ : Vec3 ℚ), ⟨2, 0, 0⟩, ⟨2, 5, 0⟩] ∧
      (∀ q ∈ [(⟨0, 1, 0⟩ : Vec3 ℚ), ⟨2, 0, 0⟩, ⟨2, 5, 0⟩],
        Vec3.dot q ⟨1, 0, 0⟩
          ≤ Vec3.dot (get_furthest_point [⟨0, 1, 0⟩, ⟨2, 0, 0⟩, ⟨2, 5, 0⟩] ⟨1, 0, 0⟩) ⟨1, 0, 0⟩) ∧
      List.find? (fun q => decide
          (Vec3.dot (get_furthest_point [⟨0, 1, 0⟩, ⟨2, 0, 0⟩, ⟨2, 5, 0⟩] ⟨1, 0, 0⟩) ⟨1, 0, 0⟩
            ≤ Vec3.dot q ⟨1, 0, 0⟩)) [⟨0, 1, 0⟩, ⟨2, 0, 0⟩, ⟨2, 5, 0⟩]
        = some (get_furthest_point [⟨0, 1, 0⟩, ⟨2, 0, 0⟩, ⟨2, 5, 0⟩] ⟨1, 0, 0⟩)) :=
  ⟨⟨⟨0, 1, 0⟩, List.mem_cons_self _ _, by norm_num⟩,
   C7_furthest_point_is_first_argmax _ _ ⟨⟨0, 1, 0⟩, List.mem_cons_self _ _, by norm_num⟩⟩

/-!
## Length and normalization lemmas over the reals
-/

theorem lengthR_nonneg (v : Vec3 ℝ) : 0 ≤ lengthR v :=
  Real.sqrt_nonneg _

theorem lengthR_smul (c : ℝ) (v : Vec3 ℝ) : lengthR (c • v) = |c| * lengthR v := by
  unfold lengthR
  have h : Vec3.dot (c • v) (c • v) = c ^ 2 * Vec3.dot v v := by
    simp only [Vec3.dot, Vec3.smul_x, Vec3.smul_y, Vec3.smul_z]
    ring
  rw [h, Real.sqrt_mul (sq_nonneg c), Real.sqrt_sq_eq_abs]

theorem divs_eq_smul (v : Vec3 ℝ) (c : ℝ) : Vec3.divs v c = (1 / c) • v := by
  ext <;> simp <;> ring

/-- Normalizing a vector of nonzero length yields a unit vector. -/
theorem lengthR_normalizeR (v : Vec3 ℝ) (h : lengthR v ≠ 0) :
    lengthR (normalizeR v) = 1 := by
  have hpos : 0 < lengthR v := lt_of_le_of_ne (lengthR_nonneg v) (Ne.symm h)
  unfold normalizeR
  rw [divs_eq_smul, lengthR_smul, abs_of_pos (by positivity)]
  field_simp

theorem lengthR_x_axis (a : ℝ) : lengthR ⟨a, 0, 0⟩ = |a| := by
  unfold lengthR
  rw [Vec3.dot_mk]
  rw [show a * a + 0 * 0 + 0 * 0 = a * a by ring]
  exact Real.sqrt_mul_self_eq_abs a

theorem lengthR_one_x : lengthR ⟨1, 0, 0⟩ = 1 := by
  rw [lengthR_x_axis]
  norm_num

/-!
## Claim C8
-/

/-- C8 counterexample: `PhysicsBody(mass=1, velocity=None,
rotational_velocity=1, axis_of_rotation=(2,0,0))` is constructed with an
axis of length 2 and nonzero rotational velocity, violating the claimed
invariant at construction time (the constructor stores the axis without
normalizing). -/
theorem C8_counterexample :
    ¬ (lengthR (PhysicsBody.init 1 none 1 (some ⟨2, 0, 0⟩)).axis_of_rotation = 1
        ∨ (PhysicsBody.init 1 none 1 (some ⟨2, 0, 0⟩)).rotational_velocity = 0) := by
  rw [not_or]
  constructor
  · show lengthR ⟨2, 0, 0⟩ ≠ 1
    rw [lengthR_x_axis]
    norm_num
  · show (1 : ℝ) ≠ 0
    norm_num

/-- C8 amended: `apply_impulse` always reestablishes the invariant
(unit axis or zero rotational velocity) on its output, and construction
establishes it exactly when the caller passes no axis, a unit-length
axis, or zero rotational velocity; a non-unit axis with nonzero
rotational velocity is stored as given and violates it. -/
theorem C8_rotation_invariant :
    (∀ (radius impulse_signed : Vec3 ℝ) (inv_inertia : Mat3) (inv_mass : ℝ)
      (pb : PhysicsBody),
      lengthR (apply_impulse radius impulse_signed inv_inertia inv_mass pb).axis_of_rotation = 1
        ∨ (apply_impulse radius impulse_signed inv_inertia inv_mass pb).rotational_velocity
          = 0) ∧
    (∀ (mass : ℝ) (velocity : Option (Vec3 ℝ)) (rotational_velocity : ℝ)
      (axis : Option (Vec3 ℝ)),
      (axis = none ∨ lengthR (axis.getD ⟨1, 0, 0⟩) = 1 ∨ rotational_velocity = 0) →
      lengthR (PhysicsBody.init mass velocity rotational_velocity axis).axis_of_rotation = 1
        ∨ (PhysicsBody.init mass velocity rotational_velocity axis).rotational_velocity
          = 0) := by
  constructor
  · intro radius impulse_signed inv_inertia inv_mass pb
    simp only [apply_impulse]
    split
    · exact Or.inr rfl
    · rename_i hbig
      left
      show lengthR (normalizeR _) = 1
      apply lengthR_normalizeR
      have hge : (1e-6 : ℝ) ≤ lengthR _ := not_lt.mp hbig
      exact ne_of_gt (lt_of_lt_of_le (by norm_num) hge)
  · intro mass velocity rotational_velocity axis h
    rcases h with h | h | h
    · left
      show lengthR (axis.getD ⟨1, 0, 0⟩) = 1
      rw [h]
      exact lengthR_one_x
    · exact Or.inl h
    · exact Or.inr h

/-- C8 witness: both parts of the amended theorem at concrete inputs. -/
theorem C8_rotation_invariant_witness :
    (lengthR (apply_impulse ⟨1, 2, 3⟩ ⟨4, 5, 6⟩ 0 1
        { mass := 2, velocity := ⟨0, 0, 0⟩, rotational_velocity := 3,
          axis_of_rotation := ⟨0, 1, 0⟩ }).axis_of_rotation = 1
      ∨ (apply_impulse ⟨1, 2, 3⟩ ⟨4, 5, 6⟩ 0 1
        { mass := 2, velocity := ⟨0, 0, 0⟩, rotational_velocity := 3,
          axis_of_rotation := ⟨0, 1, 0⟩ }).rotational_velocity = 0) ∧
    (lengthR (PhysicsBody.init 5 none 7 none).axis_of_rotation = 1
      ∨ (PhysicsBody.init 5 none 7 none).rotational_velocity = 0) :=
  ⟨C8_rotation_invariant.1 ⟨1, 2, 3⟩ ⟨4, 5, 6⟩ 0 1
      { mass := 2, velocity := ⟨0, 0, 0⟩, rotational_velocity := 3,
        axis_of_rotation := ⟨0, 1, 0⟩ },
   C8_rotation_invariant.2 5 none 7 none (Or.inl rfl)⟩

/-!
## Claim C2
-/

/-- C2: the claim says that with a physics body present (and the anchor
at least `1e-7` away) `Joint.restrict` applies the spring force instead
of snapping. In the source the whole spring branch sits behind
`if False and (...)` and can never execute: for every input, the parent
is returned unchanged, every physics body (hence every velocity) is
returned unchanged, and the child position is either untouched (early
exit) or snapped to the anchor `parent.position + parent_offset`. -/
theorem C2_restrict_always_snaps (j : Joint) (parent child : Collection)
    (delta_time : ℝ) :
    (j.restrict parent child delta_time).1 = parent ∧
    (j.restrict parent child delta_time).2.physics_body = child.physics_body ∧
    ((j.restrict parent child delta_time).2.position = child.position ∨
      (j.restrict parent child delta_time).2.position = parent.position + j.parent_offset) := by
  unfold Joint.restrict
  simp only [Bool.false_and, Bool.false_eq_true, if_false]
  split
  · exact ⟨rfl, rfl, Or.inl rfl⟩
  · exact ⟨rfl, rfl, Or.inr rfl⟩

/-!
## Claim C4
-/

/-- C4: `set_data` always refreshes the world-vertex cache and the
geometric center, but the rotation-change check for the inertia tensor
is nested inside the scale-change check: whenever the scale slice is
unchanged (even if the rotation changed), or the rotation slice is
unchanged (even if the scale changed), the cached `inertia_tensor` is
left at its previous value, contradicting the claim that it is
recomputed whenever scale or rotation changed. -/
theorem C4_inertia_cache_stale (c : Collider) (d : TransformData)
    (h : c.data.scale = d.scale ∨ c.data.rot = d.rot) :
    (c.set_data d).inertia_tensor = c.inertia_tensor ∧
    (c.set_data d).vertices = realVertices c.prefab d ∧
    (c.set_data d).geometric_center = centerOf (realVertices c.prefab d) := by
  simp only [Collider.set_data]
  rcases h with h | h
  · rw [if_neg (by simp [h])]
    exact ⟨rfl, rfl, rfl⟩
  · by_cases hs : c.data.scale ≠ d.scale
    · rw [if_pos hs, if_neg (by simp [h])]
      exact ⟨rfl, rfl, rfl⟩
    · rw [if_neg hs]
      exact ⟨rfl, rfl, rfl⟩

/-- C4 witness: the theorem at a collider built with the default
transform and a new transform that changes only the rotation slice; the
stale inertia tensor survives the update while the vertex cache is
rebuilt. -/
theorem C4_inertia_cache_stale_witness :
    ((Collider.init [⟨0, 0, 0⟩, ⟨1, 1, 0⟩] none true 0.2).set_data
        ⟨⟨0, 0, 0⟩, ⟨1, 1, 1⟩, ⟨1, 0, 0⟩⟩).inertia_tensor
      = (Collider.init [⟨0, 0, 0⟩, ⟨1, 1, 0⟩] none true 0.2).inertia_tensor ∧
    ((Collider.init [⟨0, 0, 0⟩, ⟨1, 1, 0⟩] none true 0.2).set_data
        ⟨⟨0, 0, 0⟩, ⟨1, 1, 1⟩, ⟨1, 0, 0⟩⟩).vertices
      = realVertices [⟨0, 0, 0⟩, ⟨1, 1, 0⟩] ⟨⟨0, 0, 0⟩, ⟨1, 1, 1⟩, ⟨1, 0, 0⟩⟩ ∧
    ((Collider.init [⟨0, 0, 0⟩, ⟨1, 1, 0⟩] none true 0.2).set_data
        ⟨⟨0, 0, 0⟩, ⟨1, 1, 1⟩, ⟨1, 0, 0⟩⟩).geometric_center
      = centerOf (realVertices [⟨0, 0, 0⟩, ⟨1, 1, 0⟩] ⟨⟨0, 0, 0⟩, ⟨1, 1, 1⟩, ⟨1, 0, 0⟩⟩) :=
  C4_inertia_cache_stale (Collider.init [⟨0, 0, 0⟩, ⟨1, 1, 0⟩] none true 0.2)
    ⟨⟨0, 0, 0⟩, ⟨1, 1, 1⟩, ⟨1, 0, 0⟩⟩ (Or.inl rfl)

/-!
## Rounding and evaluation helper lemmas
-/

@[simp] theorem Mat3.mulVec_zero (v : Vec3 ℝ) : Mat3.mulVec 0 v = ⟨0, 0, 0⟩ := by
  show Mat3.mulVec ⟨0, 0, 0, 0, 0, 0, 0, 0, 0⟩ v = ⟨0, 0, 0⟩
  simp [Mat3.mulVec]

@[simp] theorem lengthR_zero_vec : lengthR ⟨0, 0, 0⟩ = 0 := by
  unfold lengthR
  simp

theorem lengthR_one_y : lengthR ⟨0, 1, 0⟩ = 1 := by
  unfold lengthR
  rw [Vec3.dot_mk]
  norm_num

theorem normalizeR_one_x : normalizeR ⟨1, 0, 0⟩ = ⟨1, 0, 0⟩ := by
  unfold normalizeR
  rw [lengthR_one_x]
  simp

@[simp] theorem roundVec3_mk (a b c : ℝ) :
    roundVec3 ⟨a, b, c⟩ = ⟨round3 a, round3 b, round3 c⟩ := rfl

theorem round3_zero : round3 0 = 0 := by
  unfold round3
  norm_num

theorem round3_one : round3 1 = 1 := by
  unfold round3
  norm_num [round_ofNat]

theorem round3_neg_one : round3 (-1) = -1 := by
  unfold round3
  rw [show (1000 : ℝ) * (-1) = ((-1000 : ℤ) : ℝ) by norm_num, round_intCast]
  norm_num

/-- Any real of magnitude under half a thousandth rounds to zero at
three decimals. -/
theorem round3_small {x : ℝ} (h : |x| < 0.0005) : round3 x = 0 := by
  unfold round3
  have hx := abs_lt.mp h
  rw [show round (1000 * x) = 0 from round_eq_zero_iff.mpr
    ⟨by nlinarith [hx.1], by nlinarith [hx.2]⟩]
  norm_num

/-!
## Claim C3
-/

/-- C3: the claim says the two-body friction behaves exactly as the
one-body path (zero iff the tangential speed is under `1e-6`, else
`−μk·|J|·v̂_t`). At identical contact kinematics — relative velocity
`(1, −1, 0)` against normal `(0, 1, 0)`, so `v_t = (1, 0, 0)` with
`|v_t| = 1 ≥ 1e−6`, unit normal impulse `J = (0, 1, 0)`, `μk = 1` —
`calculate_impluse1` adds the friction `(−1, 0, 0)` but
`calculate_impulse2` drops it because its threshold reads `1e6`
instead of `1e-6`. -/
theorem C3_two_body_friction_threshold_bug :
    (1e-6 : ℝ) ≤ lengthR ⟨1, 0, 0⟩ ∧
    calculate_impulse2 ⟨1, ⟨1, -1, 0⟩, 0, ⟨1, 0, 0⟩⟩ ⟨1, ⟨0, 0, 0⟩, 0, ⟨1, 0, 0⟩⟩ 1 1
      ⟨0, 0, 0⟩ ⟨0, 0, 0⟩ ⟨0, 0, 0⟩ ⟨0, 0, 0⟩ 0 0 1 1 1 ⟨0, 1, 0⟩ = ⟨0, 1, 0⟩ ∧
    calculate_impluse1 ⟨1, ⟨1, -1, 0⟩, 0, ⟨1, 0, 0⟩⟩ 2 ⟨0, 0, 0⟩ ⟨0, 0, 0⟩ 0 1 1 1
      ⟨0, 1, 0⟩ = ⟨-1, 1, 0⟩ := by
  refine ⟨by rw [lengthR_one_x]; norm_num, ?_, ?_⟩
  · simp only [calculate_impulse2, calculate_impulse2_raw]
    norm_num [lengthR_one_x, lengthR_one_y, round3_zero, round3_one]
  · simp only [calculate_impluse1, calculate_impluse1_raw]
    norm_num [lengthR_one_x, lengthR_one_y, normalizeR_one_x, round3_zero, round3_one,
      round3_neg_one]

/-!
## Claim C10
-/

/-- C10: both impulse calculators return the raw impulse (normal plus
friction) with every vector component rounded to three decimal places,
so whenever every raw component has magnitude below `0.0005` the
returned — hence applied — impulse is the zero vector. -/
theorem C10_impulses_rounded_to_three_decimals :
    (∀ (pb : PhysicsBody) (inv_mass : ℝ) (omega radius : Vec3 ℝ) (inv_inertia : Mat3)
      (elasticity kinetic statc : ℝ) (normal : Vec3 ℝ),
      calculate_impluse1 pb inv_mass omega radius inv_inertia elasticity kinetic statc normal
        = roundVec3 (calculate_impluse1_raw pb inv_mass omega radius inv_inertia
            elasticity kinetic statc normal) ∧
      (|(calculate_impluse1_raw pb inv_mass omega radius inv_inertia
          elasticity kinetic statc normal).x| < 0.0005 →
       |(calculate_impluse1_raw pb inv_mass omega radius inv_inertia
          elasticity kinetic statc normal).y| < 0.0005 →
       |(calculate_impluse1_raw pb inv_mass omega radius inv_inertia
          elasticity kinetic statc normal).z| < 0.0005 →
       calculate_impluse1 pb inv_mass omega radius inv_inertia elasticity kinetic statc
          normal = ⟨0, 0, 0⟩)) ∧
    (∀ (pb1 pb2 : PhysicsBody) (inv_mass1 inv_mass2 : ℝ)
      (omega1 omega2 radius1 radius2 : Vec3 ℝ) (inv_inertia1 inv_inertia2 : Mat3)
      (elasticity kinetic statc : ℝ) (normal : Vec3 ℝ),
      calculate_impulse2 pb1 pb2 inv_mass1 inv_mass2 omega1 omega2 radius1 radius2
          inv_inertia1 inv_inertia2 elasticity kinetic statc normal
        = roundVec3 (calculate_impulse2_raw pb1 pb2 inv_mass1 inv_mass2 omega1 omega2
            radius1 radius2 inv_inertia1 inv_inertia2 elasticity kinetic statc normal) ∧
      (|(calculate_impulse2_raw pb1 pb2 inv_mass1 inv_mass2 omega1 omega2 radius1 radius2
          inv_inertia1 inv_inertia2 elasticity kinetic statc normal).x| < 0.0005 →
       |(calculate_impulse2_raw pb1 pb2 inv_mass1 inv_mass2 omega1 omega2 radius1 radius2
          inv_inertia1 inv_inertia2 elasticity kinetic statc normal).y| < 0.0005 →
       |(calculate_impulse2_raw pb1 pb2 inv_mass1 inv_mass2 omega1 omega2 radius1 radius2
          inv_inertia1 inv_inertia2 elasticity kinetic statc normal).z| < 0.0005 →
       calculate_impulse2 pb1 pb2 inv_mass1 inv_mass2 omega1 omega2 radius1 radius2
          inv_inertia1 inv_inertia2 elasticity kinetic statc normal = ⟨0, 0, 0⟩)) := by
  constructor
  · intro pb inv_mass omega radius inv_inertia elasticity kinetic statc normal
    refine ⟨rfl, fun h1 h2 h3 => ?_⟩
    show roundVec3 _ = _
    unfold roundVec3
    rw [round3_small h1, round3_small h2, round3_small h3]
  · intro pb1 pb2 inv_mass1 inv_mass2 omega1 omega2 radius1 radius2 inv_inertia1
      inv_inertia2 elasticity kinetic statc normal
    refine ⟨rfl, fun h1 h2 h3 => ?_⟩
    show roundVec3 _ = _
    unfold roundVec3
    rw [round3_small h1, round3_small h2, round3_small h3]

/-- C10 witness: at a resting contact (all velocities zero) both raw
impulses evaluate to the zero vector, whose components are below
`0.0005`, and both rounded impulses are the zero vector. -/
theorem C10_impulses_rounded_to_three_decimals_witness :
    (|(calculate_impluse1_raw ⟨1, ⟨0, 0, 0⟩, 0, ⟨1, 0, 0⟩⟩ 1 ⟨0, 0, 0⟩ ⟨0, 0, 0⟩ 0 0 1 1
        ⟨0, 1, 0⟩).x| < 0.0005 ∧
      calculate_impluse1 ⟨1, ⟨0, 0, 0⟩, 0, ⟨1, 0, 0⟩⟩ 1 ⟨0, 0, 0⟩ ⟨0, 0, 0⟩ 0 0 1 1
        ⟨0, 1, 0⟩ = ⟨0, 0, 0⟩) ∧
    (|(calculate_impulse2_raw ⟨1, ⟨0, 0, 0⟩, 0, ⟨1, 0, 0⟩⟩ ⟨1, ⟨0, 0, 0⟩, 0, ⟨1, 0, 0⟩⟩
        1 1 ⟨0, 0, 0⟩ ⟨0, 0, 0⟩ ⟨0, 0, 0⟩ ⟨0, 0, 0⟩ 0 0 0 1 1 ⟨0, 1, 0⟩).x| < 0.0005 ∧
      calculate_impulse2 ⟨1, ⟨0, 0, 0⟩, 0, ⟨1, 0, 0⟩⟩ ⟨1, ⟨0, 0, 0⟩, 0, ⟨1, 0, 0⟩⟩
        1 1 ⟨0, 0, 0⟩ ⟨0, 0, 0⟩ ⟨0, 0, 0⟩ ⟨0, 0, 0⟩ 0 0 0 1 1 ⟨0, 1, 0⟩ = ⟨0, 0, 0⟩) := by
  have hraw1 : calculate_impluse1_raw ⟨1, ⟨0, 0, 0⟩, 0, ⟨1, 0, 0⟩⟩ 1 ⟨0, 0, 0⟩ ⟨0, 0, 0⟩
      0 0 1 1 ⟨0, 1, 0⟩ = ⟨0, 0, 0⟩ := by
    simp only [calculate_impluse1_raw]
    norm_num
  have hraw2 : calculate_impulse2_raw ⟨1, ⟨0, 0, 0⟩, 0, ⟨1, 0, 0⟩⟩
      ⟨1, ⟨0, 0, 0⟩, 0, ⟨1, 0, 0⟩⟩ 1 1 ⟨0, 0, 0⟩ ⟨0, 0, 0⟩ ⟨0, 0, 0⟩ ⟨0, 0, 0⟩ 0 0 0 1 1
      ⟨0, 1, 0⟩ = ⟨0, 0, 0⟩ := by
    simp only [calculate_impulse2_raw]
    norm_num
  have h1 : |(calculate_impluse1_raw ⟨1, ⟨0, 0, 0⟩, 0, ⟨1, 0, 0⟩⟩ 1 ⟨0, 0, 0⟩ ⟨0, 0, 0⟩
      0 0 1 1 ⟨0, 1, 0⟩).x| < 0.0005 := by rw [hraw1]; norm_num
  have h1y : |(calculate_impluse1_raw ⟨1, ⟨0, 0, 0⟩, 0, ⟨1, 0, 0⟩⟩ 1 ⟨0, 0, 0⟩ ⟨0, 0, 0⟩
      0 0 1 1 ⟨0, 1, 0⟩).y| < 0.0005 := by rw [hraw1]; norm_num
  have h1z : |(calculate_impluse1_raw ⟨1, ⟨0, 0, 0⟩, 0, ⟨1, 0, 0⟩⟩ 1 ⟨0, 0, 0⟩ ⟨0, 0, 0⟩
      0 0 1 1 ⟨0, 1, 0⟩).z| < 0.0005 := by rw [hraw1]; norm_num
  have h2 : |(calculate_impulse2_raw ⟨1, ⟨0, 0, 0⟩, 0, ⟨1, 0, 0⟩⟩
      ⟨1, ⟨0, 0, 0⟩, 0, ⟨1, 0, 0⟩⟩ 1 1 ⟨0, 0, 0⟩ ⟨0, 0, 0⟩ ⟨0, 0, 0⟩ ⟨0, 0, 0⟩ 0 0 0 1 1
      ⟨0, 1, 0⟩).x| < 0.0005 := by rw [hraw2]; norm_num
  have h2y : |(calculate_impulse2_raw ⟨1, ⟨0, 0, 0⟩, 0, ⟨1, 0, 0⟩⟩
      ⟨1, ⟨0, 0, 0⟩, 0, ⟨1, 0, 0⟩⟩ 1 1 ⟨0, 0, 0⟩ ⟨0, 0, 0⟩ ⟨0, 0, 0⟩ ⟨0, 0, 0⟩ 0 0 0 1 1
      ⟨0, 1, 0⟩).y| < 0.0005 := by rw [hraw2]; norm_num
  have h2z : |(calculate_impulse2_raw ⟨1, ⟨0, 0, 0⟩, 0, ⟨1, 0, 0⟩⟩
      ⟨1, ⟨0, 0, 0⟩, 0, ⟨1, 0, 0⟩⟩ 1 1 ⟨0, 0, 0⟩ ⟨0, 0, 0⟩ ⟨0, 0, 0⟩ ⟨0, 0, 0⟩ 0 0 0 1 1
      ⟨0, 1, 0⟩).z| < 0.0005 := by rw [hraw2]; norm_num
  exact ⟨⟨h1, (C10_impulses_rounded_to_three_decimals.1 _ _ _ _ _ _ _ _ _).2 h1 h1y h1z⟩,
    ⟨h2, (C10_impulses_rounded_to_three_decimals.2 _ _ _ _ _ _ _ _ _ _ _ _ _ _).2
      h2 h2y h2z⟩⟩

/-!
## Claim C9
-/

theorem apply_impulse_mass (radius impulse_signed : Vec3 ℝ) (inv_inertia : Mat3)
    (inv_mass : ℝ) (pb : PhysicsBody) :
    (apply_impulse radius impulse_signed inv_inertia inv_mass pb).mass = pb.mass := by
  simp only [apply_impulse]
  split <;> rfl

theorem apply_impulse_velocity (radius impulse_signed : Vec3 ℝ) (inv_inertia : Mat3)
    (inv_mass : ℝ) (pb : PhysicsBody) :
    (apply_impulse radius impulse_signed inv_inertia inv_mass pb).velocity
      = pb.velocity + inv_mass • impulse_signed := by
  simp only [apply_impulse]
  split <;> rfl

/-- Each two-body contact iteration applies the same (divided) impulse
with sign `+` to body 1 and sign `-` to body 2 through a shared inverse
mass, so the weighted velocity sum is invariant across the whole
contact-point fold. -/
theorem collision_fold_momentum (c1 c2 : Collider) (inv : ℝ) (ii1 ii2 : Mat3)
    (elasticity kinetic statc num_points : ℝ) (normal : Vec3 ℝ) (m : ℝ)
    (l : List (Vec3 ℝ)) :
    ∀ s : PhysicsBody × PhysicsBody,
      m • (l.foldl (collision_step2 c1 c2 inv inv ii1 ii2 elasticity kinetic statc
          num_points normal) s).1.velocity
        + m • (l.foldl (collision_step2 c1 c2 inv inv ii1 ii2 elasticity kinetic statc
          num_points normal) s).2.velocity
      = m • s.1.velocity + m • s.2.velocity := by
  induction l with
  | nil => intro s; rfl
  | cons cp rest ih =>
    intro s
    rw [List.foldl_cons, ih]
    simp only [collision_step2]
    rw [apply_impulse_velocity, apply_impulse_velocity]
    ext <;> simp <;> ring

/-- C9: for two physics bodies of equal mass, `calculate_collisions`
conserves total linear momentum: each contact point applies the same
impulse with sign `+` to body 1 and sign `-` to body 2, so
`m1·Δv1 + m2·Δv2 = 0` (whatever the friction contribution, which the
`1e6` threshold of the two-body path makes zero in practice anyway). -/
theorem C9_momentum_conserved (normal : Vec3 ℝ) (c1 c2 : Collider)
    (pb1 pb2 : PhysicsBody) (contact_points : List (Vec3 ℝ))
    (h : pb1.mass = pb2.mass) :
    pb1.mass • (((calculate_collisions normal c1 c2 (some pb1) (some pb2)
          contact_points).1.getD pb1).velocity - pb1.velocity)
      + pb2.mass • (((calculate_collisions normal c1 c2 (some pb1) (some pb2)
          contact_points).2.getD pb2).velocity - pb2.velocity) = 0 := by
  simp only [calculate_collisions, Option.getD_some]
  rw [← h]
  have H := collision_fold_momentum c1 c2 (1 / pb1.mass)
    (Mat3.inverse (inertiaOf c1.vertices c1.geometric_center pb1.mass))
    (Mat3.inverse (inertiaOf c2.vertices c2.geometric_center pb1.mass))
    (max c1.elasticity c2.elasticity) 0.8 (min c1.static_friction c2.static_friction)
    (contact_points.length : ℝ) normal pb1.mass contact_points (pb1, pb2)
  have Hx := congrArg Vec3.x H
  have Hy := congrArg Vec3.y H
  have Hz := congrArg Vec3.z H
  simp only [Vec3.add_x, Vec3.add_y, Vec3.add_z, Vec3.smul_x, Vec3.smul_y,
    Vec3.smul_z] at Hx Hy Hz
  ext
  · simp only [Vec3.add_x, Vec3.smul_x, Vec3.sub_x]
    show _ = (0 : ℝ)
    linarith [Hx]
  · simp only [Vec3.add_y, Vec3.smul_y, Vec3.sub_y]
    show _ = (0 : ℝ)
    linarith [Hy]
  · simp only [Vec3.add_z, Vec3.smul_z, Vec3.sub_z]
    show _ = (0 : ℝ)
    linarith [Hz]

/-- C9 witness: momentum conservation at a concrete one-contact-point
collision between two unit-mass bodies. -/
theorem C9_momentum_conserved_witness :
    (⟨1, ⟨2, 3, 4⟩, 0, ⟨1, 0, 0⟩⟩ : PhysicsBody).mass
        • (((calculate_collisions ⟨0, 1, 0⟩ (Collider.init [⟨0, 0, 0⟩] none true 0.2)
            (Collider.init [⟨0, 0, 0⟩] none true 0.2)
            (some ⟨1, ⟨2, 3, 4⟩, 0, ⟨1, 0, 0⟩⟩) (some ⟨1, ⟨5, 6, 7⟩, 0, ⟨1, 0, 0⟩⟩)
            [⟨1, 1, 1⟩]).1.getD ⟨1, ⟨2, 3, 4⟩, 0, ⟨1, 0, 0⟩⟩).velocity
          - (⟨1, ⟨2, 3, 4⟩, 0, ⟨1, 0, 0⟩⟩ : PhysicsBody).velocity)
      + (⟨1, ⟨5, 6, 7⟩, 0, ⟨1, 0, 0⟩⟩ : PhysicsBody).mass
        • (((calculate_collisions ⟨0, 1, 0⟩ (Collider.init [⟨0, 0, 0⟩] none true 0.2)
            (Collider.init [⟨0, 0, 0⟩] none true 0.2)
            (some ⟨1, ⟨2, 3, 4⟩, 0, ⟨1, 0, 0⟩⟩) (some ⟨1, ⟨5, 6, 7⟩, 0, ⟨1, 0, 0⟩⟩)
            [⟨1, 1, 1⟩]).2.getD ⟨1, ⟨5, 6, 7⟩, 0, ⟨1, 0, 0⟩⟩).velocity
          - (⟨1, ⟨5, 6, 7⟩, 0, ⟨1, 0, 0⟩⟩ : PhysicsBody).velocity) = 0 :=
  C9_momentum_conserved ⟨0, 1, 0⟩ (Collider.init [⟨0, 0, 0⟩] none true 0.2)
    (Collider.init [⟨0, 0, 0⟩] none true 0.2) ⟨1, ⟨2, 3, 4⟩, 0, ⟨1, 0, 0⟩⟩
    ⟨1, ⟨5, 6, 7⟩, 0, ⟨1, 0, 0⟩⟩ [⟨1, 1, 1⟩] rfl
